import Mathlib

/-!
Formal model of the invoice retrieval / merge / dispatch pipeline implemented in
`app/api/generateAndEmail/route.js`, `app/api/scheduled/route.js`, and the further
route variants shipped with the repository.

The repository contains several near-duplicate variants of the same route.  Two
families of behaviour occur and both are modelled here:

* the "Gen" definitions translate `app/api/generateAndEmail/route.js` (the variant
  whose failure paths throw: a raised JavaScript exception is modelled as
  `Except.error`);
* the "Sched" definitions translate `app/api/scheduled/route.js` (first document)
  and the matching functions of the unnamed source file, whose failure paths are
  caught and converted to `null` (modelled as `none`).

External capabilities are modelled as oracles passed in as arguments:
* `fetch : Nat → Option Buf` gives the outcome of the n-th HTTP attempt for one
  document (`none` = network error / non-2xx, i.e. the `catch` branch fires);
* the Stripe listing API is a list of responses, one consumed per `stripe.invoices.list`
  call (`Except.error` = the call throws);
* `send : String → Bool` tells whether `transporter.sendMail` to a destination
  address succeeds.

pdf-lib is modelled by `Buf`: `Buf.pdf ps` is a well-formed serialized PDF whose
page list is `ps`; `Buf.garbage` is any byte buffer `PDFDocument.load` rejects.
`PDFDocument.create`/`addPage`/`save` cannot fail on these inputs, so
`createEmptyPdf` always yields the placeholder document.
-/

/-- One page of a PDF document, identified by the text drawn on it. -/
inductive PdfPage where
  | text : String → PdfPage
deriving DecidableEq, Repr

/-- A byte buffer: either a well-formed serialized PDF with a given page list,
or bytes that `PDFDocument.load` rejects. -/
inductive Buf where
  | pdf : List PdfPage → Buf
  | garbage : Buf
deriving DecidableEq, Repr

/-- Model of `PDFDocument.load`: parses a well-formed PDF, throws on garbage. -/
def loadPdf : Buf → Except String (List PdfPage)
  | .pdf ps => Except.ok ps
  | .garbage => Except.error "Failed to parse PDF document"

/-- `maxAttempts` constant shared by every `downloadPdfInMemory` variant. -/
def maxAttempts : Nat := 5

/-- The `while (attempt <= maxAttempts)` loop of `downloadPdfInMemory` in
`app/api/scheduled/route.js` (and of the unnamed file's variant).  The fuel
argument counts the remaining permitted iterations, `attempt` is the loop
variable.  Returns (result, number of `http.get` calls, console/log lines). -/
def downloadSchedAux (url : Option String) (invoiceNumber : String)
    (fetch : Nat → Option Buf) : Nat → Nat → Option Buf × Nat × List String
  | 0, _ => (none, 0, [])
  | fuel + 1, attempt =>
    match url with
    | none => (none, 0, ["No PDF URL for invoice " ++ invoiceNumber])
    | some _ =>
      match fetch attempt with
      | some data =>
        (some data, 1, ["File downloaded in memory for invoice: " ++ invoiceNumber])
      | none =>
        let errLine := "Error downloading " ++ invoiceNumber ++ " (attempt " ++
          toString attempt ++ ")"
        if attempt = maxAttempts then
          (none, 1, [errLine, "Skipping invoice " ++ invoiceNumber ++ " after max attempts"])
        else
          let next := downloadSchedAux url invoiceNumber fetch fuel (attempt + 1)
          (next.1, next.2.1 + 1, errLine :: next.2.2)

/-- `downloadPdfInMemory` of `app/api/scheduled/route.js`: never throws, returns
`null` (`none`) when the URL is absent or after `maxAttempts` failed fetches. -/
def downloadPdfInMemorySched (url : Option String) (invoiceNumber : String)
    (fetch : Nat → Option Buf) : Option Buf × Nat × List String :=
  downloadSchedAux url invoiceNumber fetch maxAttempts 1

/-- The retry loop of `downloadPdfInMemory` in `app/api/generateAndEmail/route.js`.
A missing URL throws inside the `try`, is caught, logged and retried; on the
`maxAttempts`-th failure the function throws (`Except.error`) instead of
returning `null`.  Returns (result, number of `http.get` calls, console lines). -/
def downloadGenAux (url : Option String) (invoiceNumber : String)
    (fetch : Nat → Option Buf) : Nat → Nat → Except String (Option Buf) × Nat × List String
  | 0, _ => (Except.ok none, 0, [])
  | fuel + 1, attempt =>
    match url with
    | none =>
      let errLine := "Error downloading " ++ invoiceNumber
      if attempt = maxAttempts then
        (Except.error ("Failed to download " ++ invoiceNumber ++ " after " ++
          toString attempt ++ " attempts"), 0, [errLine])
      else
        let retryLine := "Retrying download of " ++ invoiceNumber ++ " (attempt " ++
          toString attempt ++ ")"
        let next := downloadGenAux url invoiceNumber fetch fuel (attempt + 1)
        (next.1, next.2.1, errLine :: retryLine :: next.2.2)
    | some _ =>
      match fetch attempt with
      | some data =>
        (Except.ok (some data), 1, ["File downloaded in memory for invoice: " ++ invoiceNumber])
      | none =>
        let errLine := "Error downloading " ++ invoiceNumber
        if attempt = maxAttempts then
          (Except.error ("Failed to download " ++ invoiceNumber ++ " after " ++
            toString attempt ++ " attempts"), 1, [errLine])
        else
          let retryLine := "Retrying download of " ++ invoiceNumber ++ " (attempt " ++
            toString attempt ++ ")"
          let next := downloadGenAux url invoiceNumber fetch fuel (attempt + 1)
          (next.1, next.2.1 + 1, errLine :: retryLine :: next.2.2)

/-- `downloadPdfInMemory` of `app/api/generateAndEmail/route.js`. -/
def downloadPdfInMemoryGen (url : Option String) (invoiceNumber : String)
    (fetch : Nat → Option Buf) : Except String (Option Buf) × Nat × List String :=
  downloadGenAux url invoiceNumber fetch maxAttempts 1

/-- The `for (const buffer of pdfBuffers)` loop of `mergePdfs` in
`app/api/scheduled/route.js`: `if (!buffer) continue;` skips nulls, then loads
the buffer and appends its pages to the accumulated composite. -/
def mergeLoopSched (acc : List PdfPage) : List (Option Buf) → Except String (List PdfPage)
  | [] => Except.ok acc
  | none :: rest => mergeLoopSched acc rest
  | some b :: rest =>
    match loadPdf b with
    | Except.error e => Except.error e
    | Except.ok ps => mergeLoopSched (acc ++ ps) rest

/-- `mergePdfs` of `app/api/scheduled/route.js` (and of the unnamed file): the
whole loop plus `mergedPdf.save()` runs inside `try`, the `catch` returns `null`. -/
def mergePdfsSched (buffers : List (Option Buf)) : Option Buf :=
  match mergeLoopSched [] buffers with
  | Except.ok pages => some (Buf.pdf pages)
  | Except.error _ => none

/-- The merge loop of `mergePdfs` in `app/api/generateAndEmail/route.js`: no
null-guard (`PDFDocument.load(null)` throws) and no `try`/`catch`. -/
def mergeLoopGen (acc : List PdfPage) : List (Option Buf) → Except String (List PdfPage)
  | [] => Except.ok acc
  | none :: _ => Except.error "PDFDocument.load: invalid input"
  | some b :: rest =>
    match loadPdf b with
    | Except.error e => Except.error e
    | Except.ok ps => mergeLoopGen (acc ++ ps) rest

/-- `mergePdfs` of `app/api/generateAndEmail/route.js`: any load failure
propagates to the caller as a raised exception. -/
def mergePdfsGen (buffers : List (Option Buf)) : Except String Buf :=
  (mergeLoopGen [] buffers).map Buf.pdf

/-- The literal drawn on the placeholder page by `createEmptyPdf`. -/
def placeholderText : String := "No data available for this category."

/-- `createEmptyPdf`: a fresh document with one page carrying the placeholder
text.  Page creation cannot fail, so the `catch` branch is unreachable. -/
def createEmptyPdf : Option Buf := some (Buf.pdf [PdfPage.text placeholderText])

/-- Spec-side description of merging, written from the specification sentences
"for each non-null buffer in input order: parses it as a document, appends all
of its pages" and "if parsing any individual buffer fails ... returns null":
the page concatenation of a list of (non-null) buffers, `none` if any fails. -/
def specMergedPages : List Buf → Option (List PdfPage)
  | [] => some []
  | Buf.pdf ps :: rest => (specMergedPages rest).map (fun qs => ps ++ qs)
  | Buf.garbage :: _ => none

lemma mergeLoopSched_spec (bufs : List (Option Buf)) : ∀ acc : List PdfPage,
    mergeLoopSched acc bufs =
      match specMergedPages (bufs.filterMap id) with
      | some ps => Except.ok (acc ++ ps)
      | none => Except.error "Failed to parse PDF document" := by
  induction bufs with
  | nil => intro acc; simp [mergeLoopSched, specMergedPages]
  | cons b rest ih =>
    intro acc
    match b with
    | none => simpa [mergeLoopSched] using ih acc
    | some (Buf.pdf ps) =>
      have h := ih (acc ++ ps)
      simp only [mergeLoopSched, loadPdf, List.filterMap_cons, id, specMergedPages, h]
      cases hs : specMergedPages (rest.filterMap id) with
      | none => simp
      | some qs => simp [List.append_assoc]
    | some Buf.garbage =>
      simp [mergeLoopSched, loadPdf, List.filterMap_cons, id, specMergedPages]

/-- One invoice record as returned by `stripe.invoices.list`. -/
structure Invoice where
  id : String
  number : String
  status : String
  invoice_pdf : Option String
  amount_paid : Int
  amount_due : Int
deriving DecidableEq, Repr

/-- The `pdfLink` object each variant builds from an invoice. -/
structure PdfLink where
  invoice_pdf : Option String
  invoice_number : String
  amount_paid : Int
  amount_due : Int
deriving DecidableEq, Repr

/-- Field projection performed when building a `pdfLink`. -/
def toPdfLink (inv : Invoice) : PdfLink :=
  { invoice_pdf := inv.invoice_pdf, invoice_number := inv.number,
    amount_paid := inv.amount_paid, amount_due := inv.amount_due }

/-- One page of the paginated Stripe response. -/
structure Page where
  data : List Invoice
  has_more : Bool
deriving DecidableEq, Repr

/-- The argument object of one `stripe.invoices.list` call. -/
structure ListRequest where
  limit : Nat
  starting_after : Option String
  gte : Int
  lte : Int
deriving DecidableEq, Repr

def mkListRequest (gte lte : Int) (cursor : Option String) : ListRequest :=
  { limit := 10, starting_after := cursor, gte := gte, lte := lte }

/-- `["paid", "open"].includes(invoice.status)`. -/
def statusIncluded (s : String) : Bool := s = "paid" || s = "open"

/-- The classification loop body shared by every `getInvoices` variant: each
invoice of a page is pushed onto `paidAndOpenLinks` when its status is
"paid"/"open", otherwise onto `otherStatusLinks`, in received order. -/
def classifyPage (invs : List Invoice) (prim othr : List PdfLink) :
    List PdfLink × List PdfLink :=
  match invs with
  | [] => (prim, othr)
  | inv :: rest =>
    if statusIncluded inv.status then
      classifyPage rest (prim ++ [toPdfLink inv]) othr
    else
      classifyPage rest prim (othr ++ [toPdfLink inv])

/-- The `while (true)` pagination loop shared by every `getInvoices` variant.
The Stripe API is an oracle list of responses, one consumed per
`stripe.invoices.list` call; `Except.error` models the call throwing.  Returns
the sequence of requests issued and, when the loop exits while the oracle still
answers, the outcome: `Except.error` when a listing call threw (the exception
leaving the loop), `Except.ok` with the accumulated arrays otherwise.  `none`
means the oracle ran out before the loop stopped. -/
def getInvoicesLoop (gte lte : Int) :
    List (Except String Page) → Option String → List PdfLink → List PdfLink →
      List ListRequest × Option (Except String (List PdfLink × List PdfLink))
  | [], _, _, _ => ([], none)
  | resp :: rest, cursor, prim, othr =>
    match resp with
    | Except.error e => ([mkListRequest gte lte cursor], some (Except.error e))
    | Except.ok page =>
      match page.data with
      | [] => ([mkListRequest gte lte cursor], some (Except.ok (prim, othr)))
      | d :: ds =>
        let cls := classifyPage (d :: ds) prim othr
        if page.has_more then
          let next := getInvoicesLoop gte lte rest
            (some ((d :: ds).getLast (List.cons_ne_nil d ds)).id) cls.1 cls.2
          (mkListRequest gte lte cursor :: next.1, next.2)
        else
          ([mkListRequest gte lte cursor], some (Except.ok (cls.1, cls.2)))

/-- `getInvoices` of `app/api/generateAndEmail/route.js`: no `try`/`catch`, a
listing error propagates to the caller. -/
def getInvoicesGen (gte lte : Int) (responses : List (Except String Page)) :
    List ListRequest × Option (Except String (List PdfLink × List PdfLink)) :=
  getInvoicesLoop gte lte responses none [] []

/-- `getInvoices` of `app/api/scheduled/route.js` (and of the unnamed file): the
loop runs inside `try`; the `catch` returns two fresh empty arrays, discarding
anything accumulated so far. -/
def getInvoicesSched (gte lte : Int) (responses : List (Except String Page)) :
    List ListRequest × Option (Except String (List PdfLink × List PdfLink)) :=
  match getInvoicesLoop gte lte responses none [] [] with
  | (reqs, some (Except.error _)) =>
    (reqs, some (Except.ok (([] : List PdfLink), ([] : List PdfLink))))
  | other => other

/-- Spec-side description of the request trace, written from the specification
sentences: every page request carries page size 10, the optional continue-after
cursor and the inclusive window; the next cursor is the id of the last record of
the current page; listing stops at an empty page, at `has_more = false`, or when
a call fails. -/
def specRequests (gte lte : Int) :
    List (Except String Page) → Option String → List ListRequest
  | [], _ => []
  | resp :: rest, cursor =>
    mkListRequest gte lte cursor ::
      (match resp with
       | Except.error _ => []
       | Except.ok page =>
         match page.data with
         | [] => []
         | d :: ds =>
           if page.has_more then
             specRequests gte lte rest (some ((d :: ds).getLast (List.cons_ne_nil d ds)).id)
           else [])

/-- Spec-side description of "the records received from the source": the
concatenation, in arrival order, of the data of every page the loop consumes. -/
def specConsumedRecords : List (Except String Page) → List Invoice
  | [] => []
  | Except.error _ :: _ => []
  | Except.ok page :: rest =>
    match page.data with
    | [] => []
    | d :: ds => if page.has_more then (d :: ds) ++ specConsumedRecords rest else d :: ds

lemma classifyPage_eq (invs : List Invoice) : ∀ prim othr,
    classifyPage invs prim othr =
      (prim ++ (invs.filter (fun i => statusIncluded i.status)).map toPdfLink,
       othr ++ (invs.filter (fun i => !statusIncluded i.status)).map toPdfLink) := by
  induction invs with
  | nil => intro prim othr; simp [classifyPage]
  | cons inv rest ih =>
    intro prim othr
    by_cases h : statusIncluded inv.status
    · simp [classifyPage, h, ih, List.filter_cons, List.append_assoc]
    · simp [classifyPage, h, ih, List.filter_cons, List.append_assoc]

lemma getInvoicesLoop_requests (gte lte : Int) (resps : List (Except String Page)) :
    ∀ cursor prim othr,
      (getInvoicesLoop gte lte resps cursor prim othr).1 =
        specRequests gte lte resps cursor := by
  induction resps with
  | nil => intro c p o; rfl
  | cons resp rest ih =>
    intro c p o
    match resp with
    | Except.error e => rfl
    | Except.ok page =>
      match hd : page.data with
      | [] => simp [getInvoicesLoop, specRequests, hd]
      | d :: ds =>
        by_cases hm : page.has_more
        · simp [getInvoicesLoop, specRequests, hd, hm, ih]
        · simp [getInvoicesLoop, specRequests, hd, hm]

lemma getInvoicesLoop_result (gte lte : Int) (resps : List (Except String Page)) :
    ∀ cursor prim othr p o,
      (getInvoicesLoop gte lte resps cursor prim othr).2 =
          some (Except.ok (p, o)) →
        p = prim ++ ((specConsumedRecords resps).filter
              (fun i => statusIncluded i.status)).map toPdfLink ∧
        o = othr ++ ((specConsumedRecords resps).filter
              (fun i => !statusIncluded i.status)).map toPdfLink := by
  induction resps with
  | nil => intro c prim othr p o h; simp [getInvoicesLoop] at h
  | cons resp rest ih =>
    intro c prim othr p o h
    match resp with
    | Except.error e => simp [getInvoicesLoop] at h
    | Except.ok page =>
      match hd : page.data with
      | [] =>
        simp [getInvoicesLoop, hd] at h
        simp [specConsumedRecords, hd, h.1, h.2]
      | d :: ds =>
        by_cases hm : page.has_more
        · simp only [getInvoicesLoop, hd, hm, if_true] at h
          have hih := ih (some ((d :: ds).getLast (List.cons_ne_nil d ds)).id)
            (classifyPage (d :: ds) prim othr).1 (classifyPage (d :: ds) prim othr).2 p o h
          rw [classifyPage_eq] at hih
          simp only [List.append_assoc] at hih
          have h2 : specConsumedRecords (Except.ok page :: rest) =
              (d :: ds) ++ specConsumedRecords rest := by
            simp [specConsumedRecords, hd, hm]
          rw [h2, List.filter_append, List.map_append, List.filter_append, List.map_append]
          exact hih
        · simp only [getInvoicesLoop, hd, hm, if_false] at h
          have hcls : classifyPage (d :: ds) prim othr =
              (prim ++ ((d :: ds).filter (fun i => statusIncluded i.status)).map toPdfLink,
               othr ++ ((d :: ds).filter (fun i => !statusIncluded i.status)).map toPdfLink) :=
            classifyPage_eq (d :: ds) prim othr
          rw [hcls] at h
          simp at h
          simp [specConsumedRecords, hd, hm, h.1, h.2]

/-- Per-(key, category) composite construction in the `handler` of
`app/api/scheduled/route.js`: download every link (`downloadPdfInMemory` never
throws there, so the per-invoice `catch` is dead), keep the truthy buffers,
always hand the list to `mergePdfs`, and fall back to `createEmptyPdf` only when
`mergePdfs` returned `null`.  The download outcome per link is the oracle `dl`.
Returns the final buffer (`none` = attachment skipped). -/
def processCategorySched (links : List PdfLink) (dl : PdfLink → Option Buf) : Option Buf :=
  if links.length > 0 then
    let pdfBuffers := links.filterMap dl
    match mergePdfsSched (pdfBuffers.map some) with
    | some b => some b
    | none => createEmptyPdf
  else createEmptyPdf

/-- Per-(key, category) composite construction in `runMonthlyJob` of the second
document of the unnamed source file: an empty buffer list goes straight to
`createEmptyPdf` and `mergePdfs` is not called; a failed merge leaves the buffer
`null` (the attachment is then skipped). -/
def processCategoryTrailing (links : List PdfLink) (dl : PdfLink → Option Buf) : Option Buf :=
  if links.length > 0 then
    let pdfBuffers := links.filterMap dl
    if pdfBuffers.length > 0 then mergePdfsSched (pdfBuffers.map some)
    else createEmptyPdf
  else createEmptyPdf

/-- One outbound attachment. -/
structure Attachment where
  filename : String
  content : Buf
deriving DecidableEq, Repr

/-- Destination address of the ET group. -/
def etAddress : String := "mumair299792458u@gmail.com"

/-- Destination address of the PC & PCP group. -/
def nonEtAddress : String := "uzairshabbirsab@gmail.com"

/-- The credentials-missing log line of `runMonthlyJob` in the unnamed source
file and of the `handler` in `app/api/scheduled/route.js`. -/
def missingCredsLog : String :=
  "Missing Gmail credentials. Please set ADMIN_EMAIL & GMAIL_APP_PASSWORD."

/-- Shape of the run result of `runMonthlyJob` (unnamed source file, first
document): the month/year echo fields are omitted as they play no role in the
dispatch logic. -/
structure JobResult where
  success : Bool
  logs : List String
  message : Option String
deriving DecidableEq, Repr

/-- Shape of the JSON responses produced by the route handlers.  `success` is
`none` when the body carries no `success` field at all. -/
structure HttpResp where
  success : Option Bool
  message : Option String
  status : Nat
deriving DecidableEq, Repr

/-- The dispatch tail of `runMonthlyJob` in the unnamed source file (first
document): missing credentials short-circuit with `success: false`; otherwise
each non-empty group is sent inside its own `try`/`catch` and the job always
ends with `success: true`.  Returns the job result and the list of destination
addresses to which a send was attempted. -/
def dispatchPhaseUnnamed (adminEmail gmailAppPassword : Option String)
    (attachmentsET attachmentsNonET : List Attachment)
    (send : String → Bool) (logs : List String) : JobResult × List String :=
  match adminEmail, gmailAppPassword with
  | some _, some _ =>
    let step1 : List String × List String :=
      if attachmentsET.length > 0 then
        if send etAddress then (logs ++ ["ET email sent successfully."], [etAddress])
        else (logs ++ ["Error sending ET email:"], [etAddress])
      else (logs ++ ["No ET attachments to send."], [])
    let step2 : List String × List String :=
      if attachmentsNonET.length > 0 then
        if send nonEtAddress then
          (step1.1 ++ ["PC & PCP email sent successfully."], step1.2 ++ [nonEtAddress])
        else (step1.1 ++ ["Error sending PC/PCP email:"], step1.2 ++ [nonEtAddress])
      else (step1.1 ++ ["No PC/PCP attachments to send."], step1.2)
    ({ success := true,
       logs := step2.1 ++ ["===== Monthly PDF email job completed. ====="],
       message := none }, step2.2)
  | _, _ =>
    ({ success := false, logs := logs ++ [missingCredsLog],
       message := some "Missing email credentials" }, [])

/-- The dispatch tail of the `handler` in `app/api/scheduled/route.js`: same
structure as the unnamed file but logging to the console only; missing
credentials yield a `success: false` JSON body with HTTP status 200.  Returns
(response, attempted destinations, console lines). -/
def dispatchPhaseSched (adminEmail gmailAppPassword : Option String)
    (attachmentsET attachmentsNonET : List Attachment)
    (send : String → Bool) : HttpResp × List String × List String :=
  match adminEmail, gmailAppPassword with
  | some _, some _ =>
    let step1 : List String × List String :=
      if attachmentsET.length > 0 then
        if send etAddress then (["ET email sent successfully."], [etAddress])
        else (["Error sending ET email:"], [etAddress])
      else (["No ET attachments to send."], [])
    let step2 : List String × List String :=
      if attachmentsNonET.length > 0 then
        if send nonEtAddress then
          (step1.1 ++ ["PC & PCP email sent successfully."], step1.2 ++ [nonEtAddress])
        else (step1.1 ++ ["Error sending PC/PCP email:"], step1.2 ++ [nonEtAddress])
      else (step1.1 ++ ["No PC/PCP attachments to send."], step1.2)
    ({ success := some true, message := none, status := 200 },
     step2.2, step2.1 ++ ["===== Monthly PDF email job completed. ====="])
  | _, _ =>
    ({ success := some false, message := some "Missing email credentials", status := 200 },
     [], [missingCredsLog])

/-- The dispatch tail of `POST` in `app/api/generateAndEmail/route.js`: missing
credentials return a body with only a `message` (no `success` field, nothing
logged); the `sendMail` calls are not individually guarded, so a failing first
send throws to the route-level `catch` (status 500, `success: false`) and the
second group is never attempted.  Returns (response, attempted destinations,
console lines). -/
def dispatchPhaseGen (adminEmail gmailAppPassword : Option String)
    (attachmentsET attachmentsNonET : List Attachment)
    (send : String → Bool) : HttpResp × List String × List String :=
  match adminEmail, gmailAppPassword with
  | some _, some _ =>
    if attachmentsET.length > 0 then
      if send etAddress then
        if attachmentsNonET.length > 0 then
          if send nonEtAddress then
            ({ success := some true, message := none, status := 200 },
             [etAddress, nonEtAddress], [])
          else
            ({ success := some false, message := some "sendMail failed", status := 500 },
             [etAddress, nonEtAddress], ["Error generating or emailing PDFs:"])
        else
          ({ success := some true, message := none, status := 200 }, [etAddress], [])
      else
        ({ success := some false, message := some "sendMail failed", status := 500 },
         [etAddress], ["Error generating or emailing PDFs:"])
    else
      if attachmentsNonET.length > 0 then
        if send nonEtAddress then
          ({ success := some true, message := none, status := 200 }, [nonEtAddress], [])
        else
          ({ success := some false, message := some "sendMail failed", status := 500 },
           [nonEtAddress], ["Error generating or emailing PDFs:"])
      else ({ success := some true, message := none, status := 200 }, [], [])
  | _, _ =>
    ({ success := none,
       message :=
         some "Missing credentials. Make sure ADMIN_EMAIL and GMAIL_APP_PASSWORD are set.",
       status := 500 }, [], [])

/-- Sample invoice with a settled status, used as concrete test data. -/
def invPaid : Invoice :=
  { id := "in_1", number := "0001", status := "paid",
    invoice_pdf := some "https://files.example/in_1.pdf",
    amount_paid := 100, amount_due := 0 }

/-- Sample invoice with a non-settled status, used as concrete test data. -/
def invDraft : Invoice :=
  { id := "in_2", number := "0002", status := "draft", invoice_pdf := none,
    amount_paid := 0, amount_due := 50 }

/-- Sample record link, used as concrete test data. -/
def demoLink : PdfLink :=
  { invoice_pdf := some "https://files.example/in_1.pdf", invoice_number := "0001",
    amount_paid := 100, amount_due := 0 }

/-- Sample attachment for the ET group. -/
def sampleAttET : Attachment := { filename := "ET-Paid_And_Open-January-2025.pdf", content := Buf.pdf [] }

/-- Sample attachment for the PC & PCP group. -/
def sampleAttPC : Attachment := { filename := "PC-Paid_And_Open-January-2025.pdf", content := Buf.pdf [] }

/-- C9 counterexample: the `mergePdfs` of `app/api/generateAndEmail/route.js`
neither skips a null buffer nor converts an individual parse failure into a
`null` result — both inputs make it raise (`Except.error`) past the merge
boundary, so the claim as stated over that cited variant is false. -/
theorem c9_counterexample :
    mergePdfsGen [some Buf.garbage, some (Buf.pdf [PdfPage.text "page1"])] =
      Except.error "Failed to parse PDF document" ∧
    mergePdfsGen [none] = Except.error "PDFDocument.load: invalid input" :=
  ⟨rfl, rfl⟩

/-- C9 amended: the `mergePdfs` of `app/api/scheduled/route.js` (and of the
unnamed file) behaves exactly as the claim says: null entries are skipped
silently, the pages of the non-null buffers are concatenated in input order,
and a parse failure of any individual buffer makes the whole merge return null
with no partial result and no exception.  Stated as: the result equals the
spec-side merged-page description of the non-null buffers. -/
theorem c9_amended_theorem (buffers : List (Option Buf)) :
    mergePdfsSched buffers = (specMergedPages (buffers.filterMap id)).map Buf.pdf := by
  have h := mergeLoopSched_spec buffers []
  unfold mergePdfsSched
  rw [h]
  cases hs : specMergedPages (buffers.filterMap id) with
  | none => simp
  | some ps => simp

/-- C10: `mergePdfs` (scheduled variant) applied to a list with no non-null
buffer — in particular the empty list — returns a serialized zero-page
document, not null, so the caller's `if (!finalPdfBuffer)` fallback cannot
fire on that path. -/
theorem c10_merge_empty_theorem (buffers : List (Option Buf))
    (h : ∀ b ∈ buffers, b = none) :
    mergePdfsSched buffers = some (Buf.pdf []) := by
  have hfm : buffers.filterMap id = [] :=
    List.filterMap_eq_nil_iff.mpr (by simpa using h)
  have hs := mergeLoopSched_spec buffers []
  rw [hfm] at hs
  simp only [specMergedPages] at hs
  simp [mergePdfsSched, hs]

/-- C10 witness: a concrete all-null buffer list. -/
theorem c10_witness : mergePdfsSched [none, none] = some (Buf.pdf []) :=
  c10_merge_empty_theorem [none, none] (by simp)

/-- C4 counterexample: in the `handler` of `app/api/scheduled/route.js`, a
category with one record whose download fails entirely hands the empty buffer
list to `mergePdfs`, which returns a truthy zero-page document; the composite
is therefore NOT the one-page placeholder, contradicting the claim. -/
theorem c4_counterexample :
    processCategorySched [demoLink] (fun _ => none) = some (Buf.pdf []) ∧
    processCategorySched [demoLink] (fun _ => none) ≠ createEmptyPdf :=
  ⟨rfl, by decide⟩

/-- C4 amended: with an empty record list both cited variants produce exactly
the placeholder; with a non-empty record list whose downloads all fail, the
`runMonthlyJob` of the unnamed file's second document goes straight to the
placeholder without consulting merge, but the scheduled `handler` consults
`mergePdfs` on the empty buffer list and keeps its zero-page document. -/
theorem c4_amended_theorem (links : List PdfLink) (dl : PdfLink → Option Buf)
    (hne : links ≠ []) (hall : ∀ l ∈ links, dl l = none) :
    processCategorySched [] dl = createEmptyPdf ∧
    processCategoryTrailing [] dl = createEmptyPdf ∧
    processCategoryTrailing links dl = createEmptyPdf ∧
    processCategorySched links dl = some (Buf.pdf []) ∧
    createEmptyPdf = some (Buf.pdf [PdfPage.text placeholderText]) := by
  have hfm : links.filterMap dl = [] := List.filterMap_eq_nil_iff.mpr hall
  have hlen : 0 < links.length := List.length_pos.mpr hne
  refine ⟨rfl, rfl, ?_, ?_, rfl⟩
  · simp [processCategoryTrailing, hfm, hlen]
  · simp [processCategorySched, hfm, hlen, mergePdfsSched, mergeLoopSched]

/-- C4 witness: concrete instantiation with one record whose download fails. -/
theorem c4_witness :
    processCategoryTrailing [demoLink] (fun _ => none) = createEmptyPdf ∧
    processCategorySched [demoLink] (fun _ => none) = some (Buf.pdf []) := by
  have h := c4_amended_theorem [demoLink] (fun _ => none) (by simp) (by simp)
  exact ⟨h.2.2.1, h.2.2.2.1⟩

lemma downloadSchedAux_allFail (u invoiceNumber : String) (fetch : Nat → Option Buf)
    (h : ∀ i, fetch i = none) :
    ∀ fuel attempt, attempt + fuel = maxAttempts + 1 →
      (downloadSchedAux (some u) invoiceNumber fetch fuel attempt).1 = none ∧
      (downloadSchedAux (some u) invoiceNumber fetch fuel attempt).2.1 = fuel := by
  intro fuel
  induction fuel with
  | zero => intro attempt _; simp [downloadSchedAux]
  | succ k ih =>
    intro attempt hsum
    by_cases ha : attempt = maxAttempts
    · have hk : k = 0 := by simp [maxAttempts] at hsum ha; omega
      simp [downloadSchedAux, h, ha, hk]
    · have hrec := ih (attempt + 1) (by omega)
      simp [downloadSchedAux, h, ha, hrec.1, hrec.2]

lemma downloadGenAux_allFail (u invoiceNumber : String) (fetch : Nat → Option Buf)
    (h : ∀ i, fetch i = none) :
    ∀ fuel attempt, attempt + fuel = maxAttempts + 1 → 0 < fuel →
      (downloadGenAux (some u) invoiceNumber fetch fuel attempt).1 =
        Except.error ("Failed to download " ++ invoiceNumber ++ " after " ++
          toString maxAttempts ++ " attempts") ∧
      (downloadGenAux (some u) invoiceNumber fetch fuel attempt).2.1 = fuel := by
  intro fuel
  induction fuel with
  | zero => intro attempt _ hpos; omega
  | succ k ih =>
    intro attempt hsum _
    by_cases ha : attempt = maxAttempts
    · have hk : k = 0 := by simp [maxAttempts] at hsum ha; omega
      simp [downloadGenAux, h, ha, hk]
    · have hrec := ih (attempt + 1) (by omega) (by omega)
      simp [downloadGenAux, h, ha, hrec.1, hrec.2]

/-- C1 counterexample: in `app/api/generateAndEmail/route.js`, a download whose
URL is present but whose fetch fails on all attempts makes exactly 5 fetch
attempts and then THROWS (`Failed to download ... after 5 attempts`) instead of
returning the null "unavailable" signal, so the exception does cross the
download boundary in that cited variant. -/
theorem c1_counterexample :
    (downloadPdfInMemoryGen (some "https://files.example/in_1.pdf") "0001"
        (fun _ => none)).1 =
      Except.error "Failed to download 0001 after 5 attempts" ∧
    (downloadPdfInMemoryGen (some "https://files.example/in_1.pdf") "0001"
        (fun _ => none)).2.1 = 5 :=
  ⟨rfl, rfl⟩

/-- C1 amended: a permanently failing download is attempted exactly 5 times in
both cited variants; the scheduled variant then returns null without raising,
while the generateAndEmail variant raises an exception to its caller instead. -/
theorem c1_amended_theorem (u invoiceNumber : String) (fetch : Nat → Option Buf)
    (h : ∀ i, fetch i = none) :
    (downloadPdfInMemorySched (some u) invoiceNumber fetch).1 = none ∧
    (downloadPdfInMemorySched (some u) invoiceNumber fetch).2.1 = 5 ∧
    (downloadPdfInMemoryGen (some u) invoiceNumber fetch).2.1 = 5 ∧
    (downloadPdfInMemoryGen (some u) invoiceNumber fetch).1 =
      Except.error ("Failed to download " ++ invoiceNumber ++ " after " ++
        toString maxAttempts ++ " attempts") := by
  have hs := downloadSchedAux_allFail u invoiceNumber fetch h maxAttempts 1 (by simp [maxAttempts])
  have hg := downloadGenAux_allFail u invoiceNumber fetch h maxAttempts 1
    (by simp [maxAttempts]) (by simp [maxAttempts])
  exact ⟨hs.1, hs.2, hg.2, hg.1⟩

/-- C1 witness: concrete permanently-failing fetch oracle. -/
theorem c1_witness :
    (downloadPdfInMemorySched (some "https://files.example/in_1.pdf") "0001"
        (fun _ => none)).1 = none ∧
    (downloadPdfInMemorySched (some "https://files.example/in_1.pdf") "0001"
        (fun _ => none)).2.1 = 5 := by
  have h := c1_amended_theorem "https://files.example/in_1.pdf" "0001"
    (fun _ => none) (fun _ => rfl)
  exact ⟨h.1, h.2.1⟩

/-- C2 counterexample: in `app/api/generateAndEmail/route.js`, a download with
an absent URL does not return the unavailable signal after one log line: the
missing-URL error is caught and retried 5 times (9 console lines) and the
function then raises — although indeed no fetch attempt is ever made. -/
theorem c2_counterexample :
    (downloadPdfInMemoryGen none "0001" (fun _ => none)).1 =
      Except.error "Failed to download 0001 after 5 attempts" ∧
    (downloadPdfInMemoryGen none "0001" (fun _ => none)).2.2.length = 9 ∧
    (downloadPdfInMemoryGen none "0001" (fun _ => none)).2.1 = 0 :=
  ⟨rfl, rfl, rfl⟩

/-- C2 amended: with an absent document reference the scheduled variant returns
null immediately after exactly one log line and zero fetch attempts; the
generateAndEmail variant likewise makes zero fetch attempts, but loops its
missing-URL throw 5 times and raises instead of returning the unavailable
signal. -/
theorem c2_amended_theorem (invoiceNumber : String) (fetch : Nat → Option Buf) :
    downloadPdfInMemorySched none invoiceNumber fetch =
      (none, 0, ["No PDF URL for invoice " ++ invoiceNumber]) ∧
    (downloadPdfInMemoryGen none invoiceNumber fetch).2.1 = 0 ∧
    (downloadPdfInMemoryGen none invoiceNumber fetch).1 =
      Except.error ("Failed to download " ++ invoiceNumber ++ " after " ++
        toString maxAttempts ++ " attempts") :=
  ⟨rfl, rfl, rfl⟩

/-- C3 counterexample: `getInvoices` of `app/api/generateAndEmail/route.js` has
no `try`/`catch`: a listing error propagates to the caller instead of yielding
two empty sequences, so the claim as stated over that cited variant is false. -/
theorem c3_counterexample :
    (getInvoicesGen 0 0 [Except.error "Stripe listing failed"]).2 =
      some (Except.error "Stripe listing failed") :=
  rfl

/-- C3 amended: `getInvoices` of `app/api/scheduled/route.js` (and of the
unnamed file) never lets a listing error escape, and whenever any listing call
errors — at whatever page, even after records were collected — it returns
exactly two empty sequences, discarding the partial collection; the
generateAndEmail variant instead propagates the exception. -/
theorem c3_amended_theorem (gte lte : Int) (resps : List (Except String Page)) :
    (∀ e, (getInvoicesSched gte lte resps).2 ≠ some (Except.error e)) ∧
    (∀ e, (getInvoicesGen gte lte resps).2 = some (Except.error e) →
      (getInvoicesSched gte lte resps).2 =
        some (Except.ok (([] : List PdfLink), ([] : List PdfLink)))) := by
  rcases hr : getInvoicesLoop gte lte resps none [] [] with ⟨reqs, res⟩
  rcases res with _ | res2
  · exact ⟨fun e => by simp [getInvoicesSched, hr],
      fun e he => by simp [getInvoicesGen, hr] at he⟩
  · rcases res2 with e2 | pr
    · exact ⟨fun e => by simp [getInvoicesSched, hr],
        fun e he => by simp [getInvoicesSched, hr]⟩
    · exact ⟨fun e => by simp [getInvoicesSched, hr],
        fun e he => by simp [getInvoicesGen, hr] at he⟩

/-- Concrete listing oracle: one non-empty page with `has_more = true`, then a
thrown listing call. -/
def demoErrResps : List (Except String Page) :=
  [Except.ok { data := [invPaid], has_more := true }, Except.error "boom"]

/-- C3 witness: after one successfully collected page, a listing error makes
the scheduled variant return two empty sequences. -/
theorem c3_witness :
    (getInvoicesSched 0 0 demoErrResps).2 =
      some (Except.ok (([] : List PdfLink), ([] : List PdfLink))) :=
  (c3_amended_theorem 0 0 demoErrResps).2 "boom" rfl

/-- C5: whenever a `getInvoices` run completes normally, the primary sequence
is exactly the received records with status "paid" or "open" (projected to
pdf links) in arrival order, and the other sequence is exactly the remaining
received records in arrival order — for both cited variants, which share the
classification loop. -/
theorem c5_classification_theorem (gte lte : Int) (resps : List (Except String Page))
    (p o : List PdfLink)
    (h : (getInvoicesGen gte lte resps).2 = some (Except.ok (p, o))) :
    p = ((specConsumedRecords resps).filter
          (fun i => statusIncluded i.status)).map toPdfLink ∧
    o = ((specConsumedRecords resps).filter
          (fun i => !statusIncluded i.status)).map toPdfLink ∧
    (getInvoicesSched gte lte resps).2 = some (Except.ok (p, o)) := by
  have hres := getInvoicesLoop_result gte lte resps none [] [] p o h
  refine ⟨by simpa using hres.1, by simpa using hres.2, ?_⟩
  rcases hr : getInvoicesLoop gte lte resps none [] [] with ⟨reqs, res⟩
  unfold getInvoicesGen at h
  rw [hr] at h
  simp at h
  simp [getInvoicesSched, hr, h]

/-- Concrete listing oracle: a single final page holding one paid and one
draft invoice. -/
def demoPage : Page := { data := [invPaid, invDraft], has_more := false }

/-- C5 witness: on the concrete one-page oracle the paid invoice lands in the
primary sequence and the draft invoice in the other sequence. -/
theorem c5_witness :
    [toPdfLink invPaid] =
      ((specConsumedRecords [Except.ok demoPage]).filter
        (fun i => statusIncluded i.status)).map toPdfLink ∧
    [toPdfLink invDraft] =
      ((specConsumedRecords [Except.ok demoPage]).filter
        (fun i => !statusIncluded i.status)).map toPdfLink := by
  have h := c5_classification_theorem 0 0 [Except.ok demoPage]
    [toPdfLink invPaid] [toPdfLink invDraft] (by rfl)
  exact ⟨h.1, h.2.1⟩

lemma specRequests_all (gte lte : Int) (resps : List (Except String Page)) :
    ∀ cursor, ((specRequests gte lte resps cursor).all
      (fun r => r.limit == 10 && r.gte == gte && r.lte == lte)) = true := by
  induction resps with
  | nil => intro c; rfl
  | cons resp rest ih =>
    intro c
    rcases resp with e | page
    · simp [specRequests, mkListRequest]
    · rcases hd : page.data with _ | ⟨d, ds⟩
      · simp [specRequests, hd, mkListRequest]
      · by_cases hm : page.has_more
        · simp [specRequests, hd, hm, mkListRequest, ih]
        · simp [specRequests, hd, hm, mkListRequest]

/-- C6: both `getInvoices` variants issue exactly the request trace described
by the spec — limit 10 and the `created ∈ [gte, lte]` filter on every request,
first request with no cursor, next cursor the id of the last record of the
current page, stopping exactly at the first empty page, `has_more = false`
page, or failing call. -/
theorem c6_pagination_theorem (gte lte : Int) (resps : List (Except String Page)) :
    (getInvoicesGen gte lte resps).1 = specRequests gte lte resps none ∧
    (getInvoicesSched gte lte resps).1 = specRequests gte lte resps none ∧
    ((getInvoicesGen gte lte resps).1.all
      (fun r => r.limit == 10 && r.gte == gte && r.lte == lte)) = true := by
  have h1 : (getInvoicesGen gte lte resps).1 = specRequests gte lte resps none :=
    getInvoicesLoop_requests gte lte resps none [] []
  have h2 : (getInvoicesSched gte lte resps).1 = (getInvoicesGen gte lte resps).1 := by
    rcases hr : getInvoicesLoop gte lte resps none [] [] with ⟨reqs, res⟩
    rcases res with _ | res2
    · simp [getInvoicesSched, getInvoicesGen, hr]
    · rcases res2 with e | pr <;> simp [getInvoicesSched, getInvoicesGen, hr]
  refine ⟨h1, h2.trans h1, ?_⟩
  rw [h1]
  exact specRequests_all gte lte resps none

/-- C7 counterexample: with mailer credentials absent, `POST` of
`app/api/generateAndEmail/route.js` attempts no dispatch but its response body
carries no `success` field at all (only a message, with HTTP status 500) and it
appends no credentials-missing log line, so the claim as stated over that
cited variant is false. -/
theorem c7_counterexample :
    (dispatchPhaseGen none none [sampleAttET] [sampleAttPC] (fun _ => true)).1.success
      = none ∧
    (dispatchPhaseGen none none [sampleAttET] [sampleAttPC] (fun _ => true)).2.1 = [] ∧
    (dispatchPhaseGen none none [sampleAttET] [sampleAttPC] (fun _ => true)).2.2 = [] :=
  ⟨rfl, rfl, rfl⟩

/-- C7 amended: with mailer credentials entirely absent, `runMonthlyJob` of the
unnamed file and the `handler` of `app/api/scheduled/route.js` mark the run
`success: false`, attempt no dispatch for any group, and emit the
credentials-missing log line; the generateAndEmail `POST` also attempts no
dispatch but returns a 500 body with only a message — no `success` field and
no log entry. -/
theorem c7_amended_theorem (attET attNonET : List Attachment) (send : String → Bool)
    (logs : List String) :
    (dispatchPhaseUnnamed none none attET attNonET send logs).1.success = false ∧
    (dispatchPhaseUnnamed none none attET attNonET send logs).2 = [] ∧
    missingCredsLog ∈ (dispatchPhaseUnnamed none none attET attNonET send logs).1.logs ∧
    (dispatchPhaseSched none none attET attNonET send).1.success = some false ∧
    (dispatchPhaseSched none none attET attNonET send).2.1 = [] ∧
    missingCredsLog ∈ (dispatchPhaseSched none none attET attNonET send).2.2 := by
  refine ⟨rfl, rfl, ?_, rfl, rfl, ?_⟩
  · simp [dispatchPhaseUnnamed]
  · simp [dispatchPhaseSched]

/-- C8 counterexample: in `POST` of `app/api/generateAndEmail/route.js` the
`sendMail` calls are not individually guarded: with credentials present and two
non-empty groups, a failing first send aborts the run — the second group is
never attempted and the result is `success: false` with status 500, so the
claim as stated over that cited variant is false. -/
theorem c8_counterexample :
    (dispatchPhaseGen (some "admin@example.com") (some "app-pw")
        [sampleAttET] [sampleAttPC] (fun _ => false)).2.1 = [etAddress] ∧
    (dispatchPhaseGen (some "admin@example.com") (some "app-pw")
        [sampleAttET] [sampleAttPC] (fun _ => false)).1.success = some false :=
  ⟨rfl, rfl⟩

/-- C8 amended: in the `handler` of `app/api/scheduled/route.js` each group's
send runs in its own `try`/`catch`: with credentials present and two non-empty
groups, both destinations are attempted regardless of the first send's outcome
and the run result is `success: true` whatever the individual outcomes. -/
theorem c8_amended_theorem (admin pw : String) (attET attNonET : List Attachment)
    (send : String → Bool) (h1 : attET ≠ []) (h2 : attNonET ≠ []) :
    (dispatchPhaseSched (some admin) (some pw) attET attNonET send).2.1 =
      [etAddress, nonEtAddress] ∧
    (dispatchPhaseSched (some admin) (some pw) attET attNonET send).1.success =
      some true := by
  have l1 : 0 < attET.length := List.length_pos.mpr h1
  have l2 : 0 < attNonET.length := List.length_pos.mpr h2
  by_cases s1 : send etAddress <;> by_cases s2 : send nonEtAddress <;>
    simp [dispatchPhaseSched, l1, l2, s1, s2]

/-- C8 witness: concrete run in which every send fails — both destinations are
still attempted and the run reports success. -/
theorem c8_witness :
    (dispatchPhaseSched (some "admin@example.com") (some "app-pw")
        [sampleAttET] [sampleAttPC] (fun _ => false)).2.1 =
      [etAddress, nonEtAddress] ∧
    (dispatchPhaseSched (some "admin@example.com") (some "app-pw")
        [sampleAttET] [sampleAttPC] (fun _ => false)).1.success = some true :=
  c8_amended_theorem "admin@example.com" "app-pw" [sampleAttET] [sampleAttPC]
    (fun _ => false) (by simp) (by simp)
